import Mathlib

/-!
Shallow embedding of src/game.py (High Wizardy), the character progression
and combat engine of a text RPG. Python integers are modelled as Int;
wall-clock timestamps as Int microseconds since an epoch (datetime has
microsecond resolution, and the comparisons and floor divisions the code
performs on elapsed time are exact at that resolution); the draws of
random.randint are explicit parameters. Persisted JSON records are modelled
as structures whose Option fields stand for keys that may be absent
(or, for the nullable weapon and armor keys, null).
-/

/-- Weapon, from class Weapon (src/game.py lines 20-35). -/
structure Weapon where
  name : String
  description : String
  price : Int
  damage : Int
  mana_cost : Int
deriving Repr, DecidableEq

/-- Armor, from class Armor (src/game.py lines 38-51). -/
structure Armor where
  name : String
  description : String
  price : Int
  defense : Int
deriving Repr, DecidableEq

/-- PropertyUpgrade, from class PropertyUpgrade (src/game.py lines 54-68). -/
structure PropertyUpgrade where
  name : String
  description : String
  cost : Int
  happiness_bonus : Int
deriving Repr, DecidableEq

/-- Property, from class Property (src/game.py lines 71-120), with the
mutable fields initialised by __init__ made explicit. -/
structure Property where
  property_type : String
  name : String
  description : String
  price_shillings : Int
  price_pennies : Int
  size : Int
  max_upgrades : Int
  upgrades : List PropertyUpgrade
  is_rented : Bool
  rented_to : Option String
  rent_amount : Int
  listed_for_rent : Bool
deriving Repr, DecidableEq

/-- Property.add_upgrade (src/game.py lines 93-98): append the upgrade and
return True when there is room, else return False and change nothing. -/
def Property.add_upgrade (pr : Property) (u : PropertyUpgrade) : Property × Bool :=
  if (pr.upgrades.length : Int) < pr.max_upgrades then
    ⟨{ pr with upgrades := pr.upgrades ++ [u] }, true⟩
  else
    ⟨pr, false⟩

/-- Base happiness of a property type, the dict literal of src/game.py
line 102: cottage 10, manor 25, castle 50, anything else 0 (.get default). -/
def baseHappiness (t : String) : Int :=
  if t = "cottage" then 10
  else if t = "manor" then 25
  else if t = "castle" then 50
  else 0

/-- Property.calculate_happiness_bonus (src/game.py lines 100-104). -/
def Property.calculate_happiness_bonus (pr : Property) : Int :=
  baseHappiness pr.property_type + (pr.upgrades.map (fun u => u.happiness_bonus)).sum

/-- Player, from Player.__init__ (src/game.py lines 123-147). last_energy_update
is a timestamp in microseconds. -/
structure Player where
  name : String
  health : Int
  max_health : Int
  mana : Int
  max_mana : Int
  energy : Int
  max_energy : Int
  gold : Int
  weapon : Option Weapon
  armor : Option Armor
  last_energy_update : Int
  experience : Int
  level : Int
  strength : Int
  agility : Int
  vitality : Int
  properties : List Property
  happiness : Int
  max_happiness : Int
deriving Repr, DecidableEq

/-- Player.__init__ defaults (src/game.py lines 125-147); `now` stands for
the datetime.now() stored into last_energy_update. -/
def Player.new (name : String) (now : Int) : Player :=
  { name := name, health := 100, max_health := 100, mana := 100, max_mana := 100,
    energy := 100, max_energy := 100, gold := 100, weapon := none, armor := none,
    last_energy_update := now, experience := 0, level := 1,
    strength := 0, agility := 0, vitality := 0,
    properties := [], happiness := 0, max_happiness := 100 }

/-- Player.update_energy (src/game.py lines 149-162): 5 energy per full
15-minute interval elapsed since last_energy_update, clamped at max_energy;
last_energy_update advances by the consumed whole intervals. 900000000 is
15 minutes in microseconds; the guard `minutes_elapsed >= 15` and
`int(minutes_elapsed // 15)` are exact at that resolution, and for a
nonnegative quantity Int division by the positive constant is the same
floor division Python performs. Returns the new player and energy_to_add. -/
def Player.update_energy (p : Player) (now : Int) : Player × Int :=
  if 900000000 ≤ now - p.last_energy_update then
    let intervals := (now - p.last_energy_update) / 900000000
    ⟨{ p with energy := min p.max_energy (p.energy + intervals * 5),
              last_energy_update := p.last_energy_update + intervals * 900000000 },
     intervals * 5⟩
  else
    ⟨p, 0⟩

/-- Player.use_energy (src/game.py lines 164-170): regenerate first, then
spend if enough is available. -/
def Player.use_energy (p : Player) (amount : Int) (now : Int) : Player × Bool :=
  let q := (p.update_energy now).1
  if amount ≤ q.energy then
    ⟨{ q with energy := q.energy - amount }, true⟩
  else
    ⟨q, false⟩

/-- Player.use_mana (src/game.py lines 172-177). -/
def Player.use_mana (p : Player) (amount : Int) : Player × Bool :=
  if amount ≤ p.mana then
    ⟨{ p with mana := p.mana - amount }, true⟩
  else
    ⟨p, false⟩

/-- Player.calculate_happiness (src/game.py lines 187-191): sum of the
happiness bonuses of the owned properties, capped at max_happiness; stored
into the happiness field and returned. -/
def Player.calculate_happiness (p : Player) : Player × Int :=
  let total := (p.properties.map Property.calculate_happiness_bonus).sum
  ⟨{ p with happiness := min total p.max_happiness }, min total p.max_happiness⟩

/-- Player.check_dodge (src/game.py lines 204-209): `roll` is the draw of
random.randint(1, 100); each agility point gives 2 percent dodge chance,
capped at 50. -/
def Player.check_dodge (p : Player) (roll : Int) : Bool :=
  roll ≤ min (p.agility * 2) 50

/-- Player.take_damage (src/game.py lines 211-222): a successful dodge
returns (0, True) with nothing changed; otherwise damage is reduced by
armor defense plus 2 per vitality point, floored at 1, and health drops
(floored at 0). Returns the new player, actual_damage and the dodge flag. -/
def Player.take_damage (p : Player) (damage : Int) (roll : Int) : Player × Int × Bool :=
  if p.check_dodge roll then
    ⟨p, 0, true⟩
  else
    let defense : Int := match p.armor with | some a => a.defense | none => 0
    let total_defense := defense + p.vitality * 2
    let actual_damage := max 1 (damage - total_defense)
    ⟨{ p with health := max 0 (p.health - actual_damage) }, actual_damage, false⟩

/-- Player.attack_damage (src/game.py lines 224-229): base 10 plus the
equipped weapon damage plus 3 per strength point. -/
def Player.attack_damage (p : Player) : Int :=
  10 + (match p.weapon with | some w => w.damage | none => 0) + p.strength * 3

/-- Player.level_up (src/game.py lines 246-256): raise the level, grow every
maximum, restore every pool to its new maximum. -/
def Player.level_up (p : Player) : Player :=
  { p with level := p.level + 1,
           max_health := p.max_health + 20,
           max_mana := p.max_mana + 10,
           max_energy := p.max_energy + 10,
           health := p.max_health + 20,
           mana := p.max_mana + 10,
           energy := p.max_energy + 10 }

/-- Player.gain_experience (src/game.py lines 239-244): add the experience,
then a single `if` check against level * 100 triggers at most one level_up. -/
def Player.gain_experience (p : Player) (e : Int) : Player :=
  let q := { p with experience := p.experience + e }
  if q.level * 100 ≤ q.experience then q.level_up else q

/-- Enemy, from class Enemy (src/game.py lines 283-291). -/
structure Enemy where
  name : String
  health : Int
  max_health : Int
  damage : Int
  exp_reward : Int
  gold_reward : Int
deriving Repr, DecidableEq

/-- The level-scaled encounter templates of Game.combat
(src/game.py lines 496-501). -/
def combat_enemies (level : Int) : List Enemy :=
  [ { name := "Goblin", health := 30 + level * 10, max_health := 30 + level * 10,
      damage := 8 + level, exp_reward := 20, gold_reward := 30 },
    { name := "Orc", health := 50 + level * 15, max_health := 50 + level * 15,
      damage := 12 + level, exp_reward := 35, gold_reward := 50 },
    { name := "Dark Mage", health := 40 + level * 12, max_health := 40 + level * 12,
      damage := 15 + level, exp_reward := 50, gold_reward := 70 },
    { name := "Dragon", health := 100 + level * 25, max_health := 100 + level * 25,
      damage := 20 + level, exp_reward := 100, gold_reward := 150 } ]

/-- Entry of Game.combat (src/game.py lines 486-504): spend 25 energy via
use_energy; on failure return early with none (no enemy list is built, no
combat state is entered); on success build the encounter templates from the
then-current level. The player component carries the state after the
use_energy call in either case. -/
def Game.combat_entry (p : Player) (now : Int) : Player × Option (List Enemy) :=
  let r := p.use_energy 25 now
  if r.2 then ⟨r.1, some (combat_enemies r.1.level)⟩ else ⟨r.1, none⟩

/-- The magic-attack branch of Game.combat (src/game.py lines 527-539):
legal only with an equipped weapon of positive mana_cost whose mana is
successfully spent; the damage is int(attack_damage() * 1.5), which for an
integer attack value is exact in float and truncates toward zero, i.e.
Int.div of three times the attack damage by two. Returns none when the
round is replayed (no weapon, non-magical weapon, or not enough mana). -/
def Game.cast_action (p : Player) : Option (Player × Int) :=
  match p.weapon with
  | none => none
  | some w =>
    if 0 < w.mana_cost then
      let r := p.use_mana w.mana_cost
      if r.2 then some ⟨r.1, Int.tdiv (r.1.attack_damage * 3) 2⟩ else none
    else none

/-- Persisted weapon record (Weapon.to_dict, src/game.py lines 27-35);
mana_cost is read back with .get and default 0 (line 1037). -/
structure WeaponRecord where
  name : String
  description : String
  price : Int
  damage : Int
  mana_cost : Option Int
deriving Repr, DecidableEq

/-- Persisted armor record (Armor.to_dict, src/game.py lines 44-51). -/
structure ArmorRecord where
  name : String
  description : String
  price : Int
  defense : Int
deriving Repr, DecidableEq

/-- Persisted upgrade record (PropertyUpgrade.to_dict, src/game.py
lines 62-68); all four keys are read back as required (lines 1027-1030). -/
structure UpgradeRecord where
  name : String
  description : String
  cost : Int
  happiness_bonus : Int
deriving Repr, DecidableEq

/-- Persisted property record (Property.to_dict, src/game.py lines 106-120);
the fields read back with .get defaults in load_game (lines 1020-1026) are
Options. -/
structure PropertyRecord where
  property_type : String
  name : String
  description : String
  price_shillings : Int
  price_pennies : Int
  size : Int
  max_upgrades : Int
  upgrades : List UpgradeRecord
  is_rented : Option Bool
  rented_to : Option String
  rent_amount : Option Int
  listed_for_rent : Option Bool
deriving Repr, DecidableEq

/-- The property reconstruction of Game.load_game (src/game.py
lines 1015-1031): build the Property, fill the .get fields, then append
every stored upgrade to the fresh upgrade list with no capacity check. -/
def decode_property (r : PropertyRecord) : Property :=
  { property_type := r.property_type, name := r.name, description := r.description,
    price_shillings := r.price_shillings, price_pennies := r.price_pennies,
    size := r.size, max_upgrades := r.max_upgrades,
    upgrades := r.upgrades.map (fun u =>
      { name := u.name, description := u.description,
        cost := u.cost, happiness_bonus := u.happiness_bonus }),
    is_rented := r.is_rented.getD false,
    rented_to := r.rented_to,
    rent_amount := (r.rent_amount).getD 0,
    listed_for_rent := (r.listed_for_rent).getD false }

/-- Persisted character record (Player.to_dict, src/game.py lines 258-280,
as read back by Game.load_game lines 986-1041). Keys the loader indexes
directly (data[...]) are plain fields except gold, which is an Option so
that the record shapes claim C3 is about (a currency stored some other
way) are expressible; keys the loader reads with .get, and the nullable
weapon and armor, are Options. shillings and pennies hold a
pair-denominated currency a record might carry; no line of load_game reads
them. -/
structure SaveRecord where
  name : String
  health : Int
  max_health : Int
  mana : Int
  max_mana : Int
  energy : Int
  max_energy : Int
  gold : Option Int
  shillings : Option Int
  pennies : Option Int
  experience : Int
  level : Int
  last_energy_update : Int
  strength : Option Int
  agility : Option Int
  vitality : Option Int
  happiness : Option Int
  max_happiness : Option Int
  properties : Option (List PropertyRecord)
  weapon : Option WeaponRecord
  armor : Option ArmorRecord
deriving Repr, DecidableEq

/-- Game.load_game (src/game.py lines 986-1050), loading `data` into the
current player `p`. Lines 992-998 assign the first seven fields; line 999
then indexes data with the string gold, which raises KeyError for a record
without that key — the except clause catches it and load_game returns
False, leaving the rest of the player as it was. On the success path the
remaining fields are assigned, with .get defaults for the optional keys;
decoded properties are APPENDED to the existing list (line 1033), and a
null weapon or armor in the record leaves the corresponding equipment
untouched (lines 1035-1041). The Bool is load_game's return value. -/
def Game.load_game (p : Player) (data : SaveRecord) : Player × Bool :=
  let p1 := { p with name := data.name, health := data.health,
                     max_health := data.max_health, mana := data.mana,
                     max_mana := data.max_mana, energy := data.energy,
                     max_energy := data.max_energy }
  match data.gold with
  | none => ⟨p1, false⟩
  | some g =>
    ⟨{ p1 with gold := g, experience := data.experience, level := data.level,
               last_energy_update := data.last_energy_update,
               strength := data.strength.getD 0,
               agility := data.agility.getD 0,
               vitality := data.vitality.getD 0,
               happiness := data.happiness.getD 0,
               max_happiness := (data.max_happiness).getD 100,
               properties := p.properties ++ (data.properties.getD []).map decode_property,
               weapon := match data.weapon with
                 | some w => some { name := w.name, description := w.description,
                                    price := w.price, damage := w.damage,
                                    mana_cost := (w.mana_cost).getD 0 }
                 | none => p.weapon,
               armor := match data.armor with
                 | some a => some { name := a.name, description := a.description,
                                    price := a.price, defense := a.defense }
                 | none => p.armor }, true⟩

/-! ## Shared helper lemmas and sample values -/

/-- Branch form of gain_experience. -/
theorem gain_experience_eq (p : Player) (e : Int) :
    p.gain_experience e =
      if p.level * 100 ≤ p.experience + e
      then ({ p with experience := p.experience + e } : Player).level_up
      else { p with experience := p.experience + e } := rfl

/-- Spec-side recursive total of a list of upgrade boosts. -/
def upgrade_boost_total : List PropertyUpgrade → Int
  | [] => 0
  | u :: rest => u.happiness_bonus + upgrade_boost_total rest

/-- Spec-side recursive total of the happiness contributions of a list of
properties. -/
def portfolio_bonus_total : List Property → Int
  | [] => 0
  | pr :: rest => pr.calculate_happiness_bonus + portfolio_bonus_total rest

theorem upgrade_boost_total_eq_sum (l : List PropertyUpgrade) :
    (l.map (fun u => u.happiness_bonus)).sum = upgrade_boost_total l := by
  induction l with
  | nil => rfl
  | cons u rest ih => simp [upgrade_boost_total, ih]

theorem portfolio_bonus_total_eq_sum (l : List Property) :
    (l.map Property.calculate_happiness_bonus).sum = portfolio_bonus_total l := by
  induction l with
  | nil => rfl
  | cons pr rest ih => simp [portfolio_bonus_total, ih]

/-- The Cozy Cottage template of PropertyMarket (src/game.py line 326), as
Property.__init__ builds it. -/
def sample_cottage : Property :=
  { property_type := "cottage", name := "Cozy Cottage",
    description := "A small but comfortable dwelling",
    price_shillings := 50, price_pennies := 0, size := 100, max_upgrades := 2,
    upgrades := [], is_rented := false, rented_to := none, rent_amount := 0,
    listed_for_rent := false }

/-! ## Claim C1 -/

/-- C1 counterexample: the claim says a level-1 character granted 250
experience ends at level 3; gain_experience checks the threshold with a
single if, not a loop, so the fresh level-1 player granted 250 experience
ends at level 2, and the experience is kept whole at 250 (no threshold is
ever consumed). -/
theorem c1_single_level_counterexample :
    ((Player.new "Hero" 0).gain_experience 250).level = 2 ∧
    ((Player.new "Hero" 0).gain_experience 250).level ≠ 3 ∧
    ((Player.new "Hero" 0).gain_experience 250).experience = 250 := by
  decide

/-- C1 (amended): gain_experience adds the grant to experience and applies
at most ONE level-up per call, triggered exactly when the accumulated
experience reaches level * 100; experience is never consumed. The level-up
raises the level by one, grows max health, mana and energy by 20, 10 and 10
and restores each pool to its new maximum. In particular the level-1
character granted 250 experience ends at level 2 with experience 250 and
pools at their level-2 maximums 120, 110, 110. -/
theorem c1_single_level_up (p : Player) (e : Int) :
    (p.gain_experience e).experience = p.experience + e ∧
    (p.gain_experience e).level =
      (if p.level * 100 ≤ p.experience + e then p.level + 1 else p.level) ∧
    (p.gain_experience e).max_health =
      (if p.level * 100 ≤ p.experience + e then p.max_health + 20 else p.max_health) ∧
    (p.gain_experience e).health =
      (if p.level * 100 ≤ p.experience + e then p.max_health + 20 else p.health) ∧
    (p.gain_experience e).mana =
      (if p.level * 100 ≤ p.experience + e then p.max_mana + 10 else p.mana) ∧
    (p.gain_experience e).energy =
      (if p.level * 100 ≤ p.experience + e then p.max_energy + 10 else p.energy) ∧
    ((Player.new "Hero" 0).gain_experience 250).level = 2 ∧
    ((Player.new "Hero" 0).gain_experience 250).experience = 250 ∧
    ((Player.new "Hero" 0).gain_experience 250).health = 120 ∧
    ((Player.new "Hero" 0).gain_experience 250).mana = 110 ∧
    ((Player.new "Hero" 0).gain_experience 250).energy = 110 := by
  refine ⟨?_, ?_, ?_, ?_, ?_, ?_, by decide, by decide, by decide, by decide, by decide⟩ <;>
    rw [gain_experience_eq] <;> split <;> simp [Player.level_up]

/-! ## Claim C2 -/

/-- C2 counterexample: the claim says a property's total happiness
contribution equals the sum of its upgrades' boosts; the Cozy Cottage with
no upgrades contributes 10 (the base happiness of its type), while its
upgrade boosts sum to 0. -/
theorem c2_base_happiness_counterexample :
    sample_cottage.calculate_happiness_bonus = 10 ∧
    upgrade_boost_total sample_cottage.upgrades = 0 ∧
    sample_cottage.calculate_happiness_bonus ≠ upgrade_boost_total sample_cottage.upgrades := by
  decide

/-- C2 (amended): a property's happiness contribution is its type's base
happiness (cottage 10, manor 25, castle 50, otherwise 0) PLUS the sum of
its upgrades' boosts; a character's recomputed happiness equals the sum of
the contributions of all owned properties capped at max_happiness, is
stored in the happiness field, and leaves the property list unchanged. -/
theorem c2_happiness_sum (pr : Property) (p : Player) :
    pr.calculate_happiness_bonus =
      baseHappiness pr.property_type + upgrade_boost_total pr.upgrades ∧
    (p.calculate_happiness).2 = min (portfolio_bonus_total p.properties) p.max_happiness ∧
    (p.calculate_happiness).1.happiness =
      min (portfolio_bonus_total p.properties) p.max_happiness ∧
    (p.calculate_happiness).1.properties = p.properties := by
  refine ⟨?_, ?_, ?_, rfl⟩
  · rw [Property.calculate_happiness_bonus, upgrade_boost_total_eq_sum]
  · rw [Player.calculate_happiness]
    simp [portfolio_bonus_total_eq_sum]
  · rw [Player.calculate_happiness]
    simp [portfolio_bonus_total_eq_sum]

/-! ## Concrete persisted records used by the persistence claims -/

/-- A persisted record in the legacy single-currency form: gold 130, no
pair fields, no optional keys. -/
def legacy_record : SaveRecord :=
  { name := "Hero", health := 100, max_health := 100, mana := 100, max_mana := 100,
    energy := 100, max_energy := 100, gold := some 130, shillings := none, pennies := none,
    experience := 0, level := 1, last_energy_update := 0, strength := none,
    agility := none, vitality := none, happiness := none, max_happiness := none,
    properties := none, weapon := none, armor := none }

/-- The same record carrying the currency as the pair (shillings 10,
pennies 10) instead of the single gold field. -/
def pair_record : SaveRecord :=
  { legacy_record with gold := none, shillings := some 10, pennies := some 10 }

/-! ## Claim C3 -/

/-- C3 counterexample: the claim says the decoder accepts the currency
either as the single gold field or as a (shillings, pennies) pair and
normalizes both to the pair form. Loading the pair-form record fails
(load_game hits KeyError on the missing gold key and returns False), and
loading the legacy record with gold 130 keeps gold = 130 unchanged — it is
not converted to shillings 10 and pennies 10, and the player state has no
pair form at all. -/
theorem c3_currency_counterexample :
    (Game.load_game (Player.new "X" 0) pair_record).2 = false ∧
    ((Game.load_game (Player.new "X" 0) legacy_record).1).gold = 130 := by
  decide

/-- C3 (amended): the decoder accepts the currency only as the single
integer field gold and stores it unchanged as the player's gold; a record
without the gold key fails to load (and then leaves gold untouched), and
the shillings and pennies fields of a record are never read — changing
them changes nothing about the load. -/
theorem c3_gold_read_as_is (p : Player) (r : SaveRecord) (s pe : Option Int) :
    (Game.load_game p r).2 = r.gold.isSome ∧
    (Game.load_game p r).1.gold = r.gold.getD p.gold ∧
    Game.load_game p { r with shillings := s, pennies := pe } = Game.load_game p r := by
  cases hg : r.gold <;> simp [Game.load_game, hg]

/-! ## Claim C7 -/

/-- An upgrade record for a property record that stores more upgrades than
its own capacity. -/
def shed_upgrade_record : UpgradeRecord :=
  { name := "Shed", description := "A tiny shed", cost := 5, happiness_bonus := 1 }

/-- A persisted property whose stored upgrade list (length 1) exceeds its
own max_upgrades (0). -/
def overfull_property_record : PropertyRecord :=
  { property_type := "cottage", name := "Cramped Cottage",
    description := "A cottage with no room at all",
    price_shillings := 50, price_pennies := 0, size := 100, max_upgrades := 0,
    upgrades := [shed_upgrade_record], is_rented := none, rented_to := none,
    rent_amount := none, listed_for_rent := none }

/-- A save record carrying that property. -/
def overfull_save : SaveRecord :=
  { legacy_record with properties := some [overfull_property_record] }

/-- C7 counterexample: the claim says that after every operation, including
decoding a persisted record, an upgrade list never exceeds max_upgrades.
Decoding a record whose stored property carries one upgrade but capacity 0
succeeds and yields a player owning a property whose upgrade list exceeds
its capacity. -/
theorem c7_cap_counterexample :
    (Game.load_game (Player.new "X" 0) overfull_save).2 = true ∧
    ¬ (∀ pr ∈ (Game.load_game (Player.new "X" 0) overfull_save).1.properties,
        (pr.upgrades.length : Int) ≤ pr.max_upgrades) := by
  decide

/-- C7 (amended): installing through add_upgrade succeeds (and appends the
upgrade) exactly when the current count is strictly below max_upgrades, so
add_upgrade preserves the capacity invariant; decoding a persisted record,
however, copies the stored upgrade list verbatim with no capacity check,
so the invariant holds for a decoded property exactly when the record
itself respects it. -/
theorem c7_upgrade_cap (pr : Property) (u : PropertyUpgrade) (r : PropertyRecord) :
    ((pr.add_upgrade u).2 = true ↔ (pr.upgrades.length : Int) < pr.max_upgrades) ∧
    (pr.add_upgrade u).1.upgrades =
      (if (pr.upgrades.length : Int) < pr.max_upgrades
       then pr.upgrades ++ [u] else pr.upgrades) ∧
    (pr.add_upgrade u).1.max_upgrades = pr.max_upgrades ∧
    ((pr.upgrades.length : Int) ≤ pr.max_upgrades →
      ((pr.add_upgrade u).1.upgrades.length : Int) ≤ (pr.add_upgrade u).1.max_upgrades) ∧
    (decode_property r).upgrades.length = r.upgrades.length ∧
    (decode_property r).max_upgrades = r.max_upgrades := by
  refine ⟨?_, ?_, ?_, ?_, by simp [decode_property], rfl⟩
  · unfold Property.add_upgrade; split <;> simp_all
  · unfold Property.add_upgrade; split <;> simp_all
  · unfold Property.add_upgrade; split <;> simp
  · intro h
    unfold Property.add_upgrade; split <;> simp <;> omega

/-- C7 witness: the capacity-preservation implication of c7_upgrade_cap at a
concrete input: the Cozy Cottage (capacity 2, no upgrades) still satisfies
the cap after an installation. -/
theorem c7_upgrade_cap_witness :
    ((sample_cottage.upgrades.length : Int) ≤ sample_cottage.max_upgrades) ∧
    (((sample_cottage.add_upgrade
        { name := "Small Garden", description := "A pleasant garden for relaxation",
          cost := 20, happiness_bonus := 5 }).1.upgrades.length : Int) ≤
      (sample_cottage.add_upgrade
        { name := "Small Garden", description := "A pleasant garden for relaxation",
          cost := 20, happiness_bonus := 5 }).1.max_upgrades) :=
  ⟨by decide,
   (c7_upgrade_cap sample_cottage
      { name := "Small Garden", description := "A pleasant garden for relaxation",
        cost := 20, happiness_bonus := 5 }
      overfull_property_record).2.2.2.1 (by decide)⟩

/-! ## Claim C10 -/

/-- A persisted property in the shape Property.to_dict writes for the Cozy
Cottage with no upgrades. -/
def cottage_record : PropertyRecord :=
  { property_type := "cottage", name := "Cozy Cottage",
    description := "A small but comfortable dwelling",
    price_shillings := 50, price_pennies := 0, size := 100, max_upgrades := 2,
    upgrades := [], is_rented := some false, rented_to := none,
    rent_amount := some 0, listed_for_rent := some false }

/-- A save record owning that one cottage. -/
def cottage_save : SaveRecord :=
  { legacy_record with properties := some [cottage_record] }

/-- C10: a successful load APPENDS the record's decoded properties to the
player's existing list instead of replacing it (a failed load leaves the
list alone), so loading is not idempotent on properties: loading the same
record twice doubles the list, and the recomputed happiness of a player
who loaded the one-cottage record twice is 20 instead of the 10 a single
load gives. -/
theorem c10_load_appends_properties (p : Player) (r : SaveRecord) :
    (Game.load_game p r).1.properties =
      (if r.gold.isSome
       then p.properties ++ (r.properties.getD []).map decode_property
       else p.properties) ∧
    (Game.load_game (Game.load_game p r).1 r).1.properties =
      (if r.gold.isSome
       then p.properties ++ (r.properties.getD []).map decode_property
              ++ (r.properties.getD []).map decode_property
       else p.properties) ∧
    (((Game.load_game (Player.new "X" 0) cottage_save).1).calculate_happiness).2 = 10 ∧
    (((Game.load_game
        (Game.load_game (Player.new "X" 0) cottage_save).1 cottage_save).1).calculate_happiness).2
      = 20 := by
  refine ⟨?_, ?_, by decide, by decide⟩ <;>
    cases hg : r.gold <;> simp [Game.load_game, hg]

/-! ## Claim C4 -/

/-- Branch form of update_energy when at least one interval elapsed. -/
theorem update_energy_of_ge (p : Player) (now : Int)
    (h : 900000000 ≤ now - p.last_energy_update) :
    p.update_energy now =
      ⟨{ p with
           energy := min p.max_energy
             (p.energy + (now - p.last_energy_update) / 900000000 * 5),
           last_energy_update := p.last_energy_update +
             (now - p.last_energy_update) / 900000000 * 900000000 },
       (now - p.last_energy_update) / 900000000 * 5⟩ := by
  simp [Player.update_energy, h]

/-- Branch form of update_energy when less than one interval elapsed. -/
theorem update_energy_of_lt (p : Player) (now : Int)
    (h : ¬ 900000000 ≤ now - p.last_energy_update) :
    p.update_energy now = ⟨p, 0⟩ := by
  simp [Player.update_energy, h]

/-- A level-1 player at half energy whose last update is the epoch. -/
def regen_player : Player := { Player.new "Hero" 0 with energy := 50 }

/-- C4 counterexample: the claim says last_update never advances all the
way to the current time. After exactly one full 15-minute interval
(900000000 microseconds), update_energy consumes the interval (adding 5
energy) and advances last_energy_update to exactly the query time. -/
theorem c4_snap_counterexample :
    ((regen_player.update_energy 900000000).1).last_energy_update = 900000000 ∧
    (regen_player.update_energy 900000000).2 = 5 ∧
    ((regen_player.update_energy 900000000).1).energy = 55 := by
  decide

/-- C4 (amended): update_energy adds 5 energy per completed 15-minute
interval elapsed since last_energy_update, clamped at max_energy; it is
idempotent at an unchanged clock (an immediate second call adds zero and
changes nothing); the gain is monotone in the elapsed time; and
last_energy_update advances by exactly the consumed whole intervals — so
it reaches the current time precisely when the elapsed time is an exact
multiple of 15 minutes, and otherwise the partial remainder is preserved
(the new gap to now is the old elapsed time modulo one interval). -/
theorem c4_energy_regen (p : Player) (now now2 : Int) (h : now ≤ now2) :
    (p.update_energy now).1.energy =
      (if 900000000 ≤ now - p.last_energy_update
       then min p.max_energy (p.energy + (now - p.last_energy_update) / 900000000 * 5)
       else p.energy) ∧
    (p.update_energy now).2 =
      (if 900000000 ≤ now - p.last_energy_update
       then (now - p.last_energy_update) / 900000000 * 5
       else 0) ∧
    (p.update_energy now).1.last_energy_update =
      (if 900000000 ≤ now - p.last_energy_update
       then p.last_energy_update + (now - p.last_energy_update) / 900000000 * 900000000
       else p.last_energy_update) ∧
    now - (p.update_energy now).1.last_energy_update =
      (if 900000000 ≤ now - p.last_energy_update
       then (now - p.last_energy_update) % 900000000
       else now - p.last_energy_update) ∧
    (p.update_energy now).1.update_energy now = ⟨(p.update_energy now).1, 0⟩ ∧
    (p.update_energy now).2 ≤ (p.update_energy now2).2 := by
  by_cases h9 : 900000000 ≤ now - p.last_energy_update
  · rw [update_energy_of_ge p now h9]
    refine ⟨by simp [h9], by simp [h9], by simp [h9], by simp [h9]; omega, ?_, ?_⟩
    · refine update_energy_of_lt _ _ ?_
      simp only
      omega
    · rw [update_energy_of_ge p now2 (by omega)]
      simp [h9]
      omega
  · rw [update_energy_of_lt p now h9]
    refine ⟨by simp [h9], by simp [h9], by simp [h9], by simp [h9], update_energy_of_lt _ _ h9, ?_⟩
    by_cases h9' : 900000000 ≤ now2 - p.last_energy_update
    · rw [update_energy_of_ge p now2 h9']
      simp [h9]
      omega
    · rw [update_energy_of_lt p now2 h9']

/-- C4 witness: the monotonicity conjunct of c4_energy_regen at a concrete
input: between elapsed times 0 and 30 minutes the gain does not decrease. -/
theorem c4_energy_regen_witness :
    (0 : Int) ≤ 1800000000 ∧
    (regen_player.update_energy 0).2 ≤ (regen_player.update_energy 1800000000).2 :=
  ⟨by decide, (c4_energy_regen regen_player 0 1800000000 (by decide)).2.2.2.2.2⟩

/-! ## Claim C5 -/

/-- A level-1 player with 50 agility: dodge chance is capped at 50 and a
roll of 1 always dodges. -/
def dodger : Player := { Player.new "Dodger" 0 with agility := 50 }

/-- C5: take_damage evaluates the dodge check first — a successful dodge
returns (0, True) with the player untouched, before any defense
arithmetic; otherwise the damage actually taken is max(1, damage - (armor
defense + 2 * vitality)), hence never below 1 for a non-dodged attack, and
health drops by it (floored at zero). A fresh player (0 armor, 0 vitality,
0 agility, so every roll fails the dodge) attacked for 8 takes exactly 8. -/
theorem c5_take_damage (p : Player) (damage roll : Int) :
    (p.check_dodge roll = true → p.take_damage damage roll = ⟨p, 0, true⟩) ∧
    (p.check_dodge roll = false →
      (p.take_damage damage roll).2.1 =
        max 1 (damage - ((match p.armor with | some a => a.defense | none => 0)
          + p.vitality * 2)) ∧
      1 ≤ (p.take_damage damage roll).2.1 ∧
      (p.take_damage damage roll).1 =
        { p with health := max 0 (p.health - (p.take_damage damage roll).2.1) } ∧
      (p.take_damage damage roll).2.2 = false) ∧
    (Player.new "Hero" 0).check_dodge 1 = false ∧
    ((Player.new "Hero" 0).take_damage 8 1).2.1 = 8 := by
  refine ⟨?_, ?_, by decide, by decide⟩
  · intro h
    simp [Player.take_damage, h]
  · intro h
    simp [Player.take_damage, h, le_max_iff]

/-- C5 witness: the dodge branch of c5_take_damage at a concrete input: the
50-agility player dodges a roll of 1 and the 5-damage attack is zeroed. -/
theorem c5_take_damage_witness :
    dodger.check_dodge 1 = true ∧ dodger.take_damage 5 1 = ⟨dodger, 0, true⟩ :=
  ⟨by decide, (c5_take_damage dodger 5 1).1 (by decide)⟩

/-! ## Claim C6 -/

/-- The weapon of the spec scenario: damage 15, mana cost 10. -/
def fire_blade : Weapon :=
  { name := "Fire Blade", description := "A blade for the cast scenario",
    price := 0, damage := 15, mana_cost := 10 }

/-- A fresh player (strength 0, mana 100) holding that weapon. -/
def mage : Player := { Player.new "Mage" 0 with weapon := some fire_blade }

/-- C6: attack damage is base 10 plus the equipped weapon damage plus the
strength bonus (3 per point); the cast action is legal exactly when the
equipped weapon has mana_cost > 0 and that mana can be spent, in which
case it spends the mana and deals the attack damage times 1.5 truncated
toward zero; with weapon damage 15 and strength 0 the attack deals 25 and
the cast deals 37 (spending 10 mana). -/
theorem c6_attack_and_cast (p : Player) (w : Weapon) :
    p.attack_damage =
      10 + (match p.weapon with | some u => u.damage | none => 0) + p.strength * 3 ∧
    (p.weapon = some w → 0 < w.mana_cost → w.mana_cost ≤ p.mana →
      Game.cast_action p =
        some ⟨{ p with mana := p.mana - w.mana_cost }, Int.tdiv (p.attack_damage * 3) 2⟩) ∧
    ((Game.cast_action p).isSome = true ↔
      ∃ u, p.weapon = some u ∧ 0 < u.mana_cost ∧ u.mana_cost ≤ p.mana) ∧
    mage.attack_damage = 25 ∧
    Game.cast_action mage = some ⟨{ mage with mana := 90 }, 37⟩ := by
  refine ⟨rfl, ?_, ?_, by decide, by decide⟩
  · intro hw h1 h2
    simp [Game.cast_action, hw, h1, Player.use_mana, h2, Player.attack_damage]
  · cases hw : p.weapon with
    | none => simp [Game.cast_action, hw]
    | some u =>
      by_cases h1 : 0 < u.mana_cost
      · by_cases h2 : u.mana_cost ≤ p.mana
        · simp [Game.cast_action, hw, h1, Player.use_mana, h2]
        · simp [Game.cast_action, hw, h1, Player.use_mana, h2]
      · simp [Game.cast_action, hw, h1]

/-- C6 witness: the cast implication of c6_attack_and_cast at the concrete
mage: its weapon is magical, its mana suffices, and the cast result is the
mana-decremented player and the truncated 1.5 x attack damage. -/
theorem c6_attack_and_cast_witness :
    mage.weapon = some fire_blade ∧ 0 < fire_blade.mana_cost ∧
    fire_blade.mana_cost ≤ mage.mana ∧
    Game.cast_action mage =
      some ⟨{ mage with mana := mage.mana - fire_blade.mana_cost },
            Int.tdiv (mage.attack_damage * 3) 2⟩ :=
  ⟨rfl, by decide, by decide,
   (c6_attack_and_cast mage fire_blade).2.1 rfl (by decide) (by decide)⟩

/-! ## Claim C8 -/

/-- C8: use_energy regenerates first and then succeeds exactly when the
post-regeneration energy covers the amount, decrementing by exactly that
amount, and on failure returns the post-regeneration state with no
deduction; use_mana (mana has no time-based regeneration to trigger)
succeeds exactly when the current mana covers the amount, decrements by
exactly that amount, and on failure leaves the player entirely unchanged.
Both report failure as a returned boolean. -/
theorem c8_use_resources (p : Player) (amount now : Int) :
    ((p.use_energy amount now).2 = true ↔ amount ≤ ((p.update_energy now).1).energy) ∧
    (p.use_energy amount now).1 =
      (if amount ≤ ((p.update_energy now).1).energy
       then { (p.update_energy now).1 with
                energy := ((p.update_energy now).1).energy - amount }
       else (p.update_energy now).1) ∧
    ((p.use_mana amount).2 = true ↔ amount ≤ p.mana) ∧
    (p.use_mana amount).1 =
      (if amount ≤ p.mana then { p with mana := p.mana - amount } else p) := by
  refine ⟨?_, ?_, ?_, ?_⟩ <;>
    simp only [Player.use_energy, Player.use_mana] <;> split <;> simp_all

/-! ## Claim C9 -/

/-- Fields update_energy never writes. -/
theorem update_energy_frame (p : Player) (now : Int) :
    ((p.update_energy now).1).health = p.health ∧
    ((p.update_energy now).1).mana = p.mana ∧
    ((p.update_energy now).1).gold = p.gold ∧
    ((p.update_energy now).1).experience = p.experience ∧
    ((p.update_energy now).1).level = p.level := by
  unfold Player.update_energy
  split <;> simp

/-- A fresh player drained to 0 energy at the epoch. -/
def tired : Player := { Player.new "Tired" 0 with energy := 0 }

/-- C9: combat entry spends the fixed 25 energy through use_energy; an
encounter is produced exactly when the spend succeeds, and when it fails
the function returns before any enemy is created (no enemy list exists)
with the character's health, mana, gold, experience and level all exactly
as before the attempt. -/
theorem c9_combat_energy_gate (p : Player) (now : Int) :
    (Game.combat_entry p now).2.isSome = (p.use_energy 25 now).2 ∧
    ((p.use_energy 25 now).2 = false →
      (Game.combat_entry p now).2 = none ∧
      (Game.combat_entry p now).1.health = p.health ∧
      (Game.combat_entry p now).1.mana = p.mana ∧
      (Game.combat_entry p now).1.gold = p.gold ∧
      (Game.combat_entry p now).1.experience = p.experience ∧
      (Game.combat_entry p now).1.level = p.level) := by
  constructor
  · cases hb : (p.use_energy 25 now).2 <;> simp [Game.combat_entry, hb]
  · intro h
    have hc : ¬ (25 ≤ ((p.update_energy now).1).energy) := by
      intro hc
      simp [Player.use_energy, hc] at h
    have hframe := update_energy_frame p now
    simp [Game.combat_entry, Player.use_energy, hc, hframe.1, hframe.2.1,
      hframe.2.2.1, hframe.2.2.2.1, hframe.2.2.2.2]

/-- C9 witness: c9_combat_energy_gate at the drained player: the 25-energy
spend fails at the unchanged clock, no enemy list is created, and the
listed fields are untouched. -/
theorem c9_combat_energy_gate_witness :
    (tired.use_energy 25 0).2 = false ∧
    ((Game.combat_entry tired 0).2 = none ∧
     (Game.combat_entry tired 0).1.health = tired.health ∧
     (Game.combat_entry tired 0).1.mana = tired.mana ∧
     (Game.combat_entry tired 0).1.gold = tired.gold ∧
     (Game.combat_entry tired 0).1.experience = tired.experience ∧
     (Game.combat_entry tired 0).1.level = tired.level) :=
  ⟨by decide, (c9_combat_energy_gate tired 0).2 (by decide)⟩
